import Mathlib

/-!
Shallow embedding of the jobly data-access layer: the `sqlForPartialUpdate`
helper (helpers/sql.js), the `Company` and `Job` entity managers (models),
and a relational model of the store operations they issue.

Request payloads and query-string filters arrive as already-deserialized
JavaScript objects; an object is embedded as an association list of its
key/value pairs in insertion order (a JS object has pairwise-distinct keys,
and `Object.keys` returns them in insertion order for string keys).
Query-string values are always strings.
-/

namespace Jobly

/-- JavaScript values as they occur in request payloads. -/
inductive Jval where
  | str (s : String)
  | int (n : Int)
  | boolean (b : Bool)
  | null
deriving DecidableEq, Repr

def Jval.isStr : Jval → Bool
  | .str _ => true
  | _ => false

def Jval.isInt : Jval → Bool
  | .int _ => true
  | _ => false

def Jval.isNull : Jval → Bool
  | .null => true
  | _ => false

def Jval.asStr (v : Jval) (dflt : String) : String :=
  match v with
  | .str s => s
  | _ => dflt

def Jval.asOptInt : Jval → Option Int
  | .int n => some n
  | _ => none

def Jval.asOptStr : Jval → Option String
  | .str s => some s
  | _ => none

/-- Coercion of a payload value into a text-formatted numeric column value
(the store formats numerics as text on the way out). -/
def Jval.asOptNum : Jval → Option String
  | .str s => some s
  | .int n => some (toString n)
  | _ => none

/-- Error classes raised by the managers: the two application errors from
expressError.js, plus a class for errors raised by the store itself. -/
inductive Err where
  | badRequest
  | notFound
  | storeErr
deriving DecidableEq, Repr

/-- JavaScript `parseInt` restricted to what reaches it here: skips leading
spaces, takes an optional sign and the longest leading run of decimal
digits; `none` stands for `NaN`. -/
def jsParseInt (s : String) : Option Int :=
  let cs := s.data.dropWhile (fun c => c = ' ')
  let signAndRest : Int × List Char :=
    match cs with
    | '-' :: t => (-1, t)
    | '+' :: t => (1, t)
    | t => (1, t)
  let ds := signAndRest.2.takeWhile Char.isDigit
  if ds.isEmpty then none
  else some (signAndRest.1 * (ds.foldl (fun a c => a * 10 + (c.toNat - 48)) 0 : Nat))

/-- Rendering of a `parseInt` result inside a template literal: `NaN` prints
as the text NaN, an integer prints in decimal. -/
def jsIntToString : Option Int → String
  | none => "NaN"
  | some n => toString n

/-- JavaScript `<` on two `parseInt` results: any comparison against `NaN`
is false. -/
def jsLt : Option Int → Option Int → Bool
  | some x, some y => decide (x < y)
  | _, _ => false

/-- Column-name translation `jsToSql[colName] || colName` from
helpers/sql.js: fall back to the logical name when the map has no entry
(or a falsy one, i.e. the empty string). -/
def physName (jsToSql : List (String × String)) (colName : String) : String :=
  match jsToSql.lookup colName with
  | some s => if s = "" then colName else s
  | none => colName

/-- One assignment fragment of the SET clause built in helpers/sql.js. -/
def colFrag (jsToSql : List (String × String)) (colName : String) (idx : Nat) : String :=
  "\"" ++ physName jsToSql colName ++ "\"=$" ++ toString idx

/-- Embedding of `sqlForPartialUpdate` (helpers/sql.js): throws BadRequest
on an empty field set, otherwise maps key number `idx` (0-based) to the
fragment with placeholder `idx + 1` and returns the values in key order. -/
def sqlForPartialUpdate (dataToUpdate : List (String × Jval))
    (jsToSql : List (String × String)) : Except Err (String × List Jval) :=
  let keys := dataToUpdate.map Prod.fst
  if keys.length = 0 then .error .badRequest
  else
    let cols := keys.enum.map (fun p => colFrag jsToSql p.2 (p.1 + 1))
    .ok (String.intercalate ", " cols, dataToUpdate.map Prod.snd)

/-- Query-string filters as they reach `filter`: string-valued fields. -/
abbrev Filters := List (String × String)

/-- Base SELECT of `Job.filter`, exactly the template literal in the source. -/
def jobFilterBase : String :=
  "\n      SELECT id,\n            title,\n            salary,\n            equity,\n            company_handle\n      FROM jobs"

/-- Clause appended in the multi-filter loop of `Job.filter` for key `k`
(the loop reads the value through the filters object, appends nothing for
an unrecognized key, and for hasEquity appends nothing unless the value is
the string true or false). -/
def jobFilterClause (filters : Filters) (k : String) : String :=
  if k = "title" then
    " title ILIKE '%" ++ ((filters.lookup "title").getD "undefined") ++ "%'"
  else if k = "minSalary" then
    " salary > " ++ jsIntToString (jsParseInt ((filters.lookup "minSalary").getD "undefined"))
  else if k = "hasEquity" then
    if (filters.lookup "hasEquity").getD "undefined" = "true" then
      " equity IS NOT NULL AND equity > 0"
    else if (filters.lookup "hasEquity").getD "undefined" = "false" then
      " equity >= 0 OR equity IS NULL"
    else ""
  else ""

/-- Embedding of the SQL text built by `Job.filter` (models/job.js): one
branch for exactly one filter, a counter-driven loop for several; the
final text is sent to the store with no bind values. -/
def jobFilterSQL (filters : Filters) : String :=
  if filters.length = 1 then
    match filters.lookup "title" with
    | some t => jobFilterBase ++ " WHERE title ILIKE '%" ++ t ++ "%'"
    | none =>
      match filters.lookup "minSalary" with
      | some s => jobFilterBase ++ " WHERE salary > " ++ jsIntToString (jsParseInt s)
      | none => jobFilterBase ++ " WHERE equity IS NOT NULL AND equity > 0"
  else if 1 < filters.length then
    filters.enum.foldl
      (fun acc p =>
        let acc2 := acc ++ jobFilterClause filters p.2.1
        if p.1 + 1 < filters.length then acc2 ++ " AND" else acc2)
      (jobFilterBase ++ " WHERE")
  else jobFilterBase

/-- Base SELECT of `Company.filter`, exactly the template literal in the
source. -/
def companyFilterBase : String :=
  "\n      SELECT handle,\n            name,\n            description,\n            num_employees AS \"numEmployees\",\n            logo_url AS \"logoUrl\"\n      FROM companies"

/-- Embedding of `Company.filter` (models/company.js) up to the store call:
either the BadRequest throw for an unsatisfiable employee range, or the
SQL text passed to the store (again with no bind values). -/
def companyFilter (filters : Filters) : Except Err String :=
  let s1 :=
    match filters.lookup "name" with
    | some n => companyFilterBase ++ " WHERE name ILIKE '%" ++ n ++ "%'"
    | none => companyFilterBase
  let s2 :=
    if 1 < filters.length ∧ (filters.lookup "name").isSome = true then s1 ++ " AND"
    else if filters.lookup "name" = none then s1 ++ " WHERE"
    else s1
  match filters.lookup "minEmployees", filters.lookup "maxEmployees" with
  | some mn, some mx =>
    if jsLt (jsParseInt mx) (jsParseInt mn) then .error .badRequest
    else
      .ok (s2 ++ " num_employees BETWEEN " ++ jsIntToString (jsParseInt mn)
            ++ " AND " ++ jsIntToString (jsParseInt mx))
  | some mn, none => .ok (s2 ++ " num_employees > " ++ jsIntToString (jsParseInt mn))
  | none, some mx => .ok (s2 ++ " num_employees < " ++ jsIntToString (jsParseInt mx))
  | none, none => .ok s2

/-- Statements `Company.filter` issues to the store: the single final
`db.query`, reached only when no error was thrown first. -/
def companyFilterQueries (filters : Filters) : List String :=
  match companyFilter filters with
  | .ok s => [s]
  | .error _ => []

/-- Row of the companies table, with the result-column aliases the managers
select (`num_employees AS "numEmployees"`, `logo_url AS "logoUrl"`). -/
structure CompanyRow where
  handle : String
  name : String
  description : String
  numEmployees : Option Int
  logoUrl : Option String
deriving DecidableEq, Repr

/-- Row of the jobs table as selected by create/findAll/filter: includes
the store-assigned numeric identifier. -/
structure JobRow where
  id : Nat
  title : String
  salary : Option Int
  equity : Option String
  company_handle : String
deriving DecidableEq, Repr

/-- Job row as returned by `Job.get` and `Job.update`, whose SELECT and
RETURNING lists are `title, salary, equity, company_handle`: no id field. -/
structure JobRowNoId where
  title : String
  salary : Option Int
  equity : Option String
  company_handle : String
deriving DecidableEq, Repr

abbrev CompanyDB := List CompanyRow

/-- State of the jobs table: its rows plus the sequence value the store
will assign to the next inserted id. -/
structure JobDB where
  rows : List JobRow
  nextId : Nat
deriving DecidableEq, Repr

/-- Input to `Company.create`. -/
structure CompanyData where
  handle : String
  name : String
  description : String
  numEmployees : Option Int
  logoUrl : Option String
deriving DecidableEq, Repr

/-- Input to `Job.create`. -/
structure JobData where
  title : String
  salary : Option Int
  equity : Option String
  company_handle : String
deriving DecidableEq, Repr

/-- Embedding of `Company.create`: advisory duplicate-handle check by a
read, then the parameterized INSERT returning the new row. -/
def companyCreate (d : CompanyData) (db : CompanyDB) :
    Except Err (CompanyRow × CompanyDB) :=
  if (db.find? (fun r => r.handle == d.handle)).isSome then .error .badRequest
  else
    let r : CompanyRow := ⟨d.handle, d.name, d.description, d.numEmployees, d.logoUrl⟩
    .ok (r, db ++ [r])

/-- Embedding of `Company.findAll`: every row, ORDER BY name. -/
def companyFindAll (db : CompanyDB) : List CompanyRow :=
  db.mergeSort (fun a b => decide (a.name ≤ b.name))

/-- Embedding of `Company.get`: single-row lookup by handle (`WHERE handle
= $1`, first matching row), NotFound when absent. -/
def companyGet (handle : String) (db : CompanyDB) : Except Err CompanyRow :=
  match db.find? (fun r => r.handle == handle) with
  | some r => .ok r
  | none => .error .notFound

/-- Name-map `Company.update` passes to `sqlForPartialUpdate`. -/
def companyJsToSql : List (String × String) :=
  [("numEmployees", "num_employees"), ("logoUrl", "logo_url")]

/-- Whether the store accepts assigning value `v` to physical column `col`
of the companies table; assignments to unknown columns or with values of
the wrong type fail at the store as statement errors. -/
def companySetOk (col : String) (v : Jval) : Bool :=
  (col == "handle" && v.isStr) || (col == "name" && v.isStr)
  || (col == "description" && v.isStr)
  || (col == "num_employees" && (v.isInt || v.isNull))
  || (col == "logo_url" && (v.isStr || v.isNull))

/-- Effect of one SET assignment on a company row. -/
def applyCompanySet (r : CompanyRow) (col : String) (v : Jval) : CompanyRow :=
  if col = "handle" then { r with handle := v.asStr r.handle }
  else if col = "name" then { r with name := v.asStr r.name }
  else if col = "description" then { r with description := v.asStr r.description }
  else if col = "num_employees" then { r with numEmployees := v.asOptInt }
  else if col = "logo_url" then { r with logoUrl := v.asOptStr }
  else r

/-- SET assignments of an UPDATE built from payload `data`: the physical
column for each key (via `sqlForPartialUpdate`) paired with the bound
value at the same placeholder index. -/
def companySets (data : List (String × Jval)) : List (String × Jval) :=
  data.map (fun p => (physName companyJsToSql p.1, p.2))

/-- Embedding of `Company.update`: build the SET clause with
`sqlForPartialUpdate` (BadRequest on an empty payload), execute the UPDATE
`SET ... WHERE handle = $n RETURNING ...`, NotFound when it returns no
row. -/
def companyUpdate (handle : String) (data : List (String × Jval)) (db : CompanyDB) :
    Except Err (CompanyRow × CompanyDB) :=
  match sqlForPartialUpdate data companyJsToSql with
  | .error e => .error e
  | .ok _ =>
    let sets := companySets data
    if sets.all (fun p => companySetOk p.1 p.2) then
      match db.find? (fun r => r.handle == handle) with
      | none => .error .notFound
      | some r =>
        .ok (sets.foldl (fun x p => applyCompanySet x p.1 p.2) r,
             db.map (fun x =>
               if x.handle == handle then sets.foldl (fun y p => applyCompanySet y p.1 p.2) x
               else x))
    else .error .storeErr

/-- Embedding of `Company.remove`: DELETE by handle RETURNING handle,
NotFound when no row was deleted. -/
def companyRemove (handle : String) (db : CompanyDB) : Except Err CompanyDB :=
  if (db.find? (fun r => r.handle == handle)).isSome then
    .ok (db.filter (fun r => !(r.handle == handle)))
  else .error .notFound

/-- Embedding of `Job.create`: advisory duplicate check on the
(title, company_handle) pair, then the INSERT returning the new row with
its store-assigned id. -/
def jobCreate (d : JobData) (db : JobDB) : Except Err (JobRow × JobDB) :=
  if (db.rows.find? (fun r => r.title == d.title && r.company_handle == d.company_handle)).isSome
  then .error .badRequest
  else
    let r : JobRow := ⟨db.nextId, d.title, d.salary, d.equity, d.company_handle⟩
    .ok (r, ⟨db.rows ++ [r], db.nextId + 1⟩)

/-- ORDER BY salary comparison: ascending, nulls last. -/
def salaryLe : Option Int → Option Int → Bool
  | some x, some y => decide (x ≤ y)
  | some _, none => true
  | none, some _ => false
  | none, none => true

/-- Embedding of `Job.findAll`: every row, ORDER BY salary. -/
def jobFindAll (db : JobDB) : List JobRow :=
  db.rows.mergeSort (fun a b => salaryLe a.salary b.salary)

/-- Embedding of `Job.get`: lookup by id, selecting only title, salary,
equity, company_handle; NotFound when absent. -/
def jobGet (id : Nat) (db : JobDB) : Except Err JobRowNoId :=
  match db.rows.find? (fun r => r.id == id) with
  | some r => .ok ⟨r.title, r.salary, r.equity, r.company_handle⟩
  | none => .error .notFound

/-- Name-map `Job.update` passes to `sqlForPartialUpdate`. -/
def jobJsToSql : List (String × String) :=
  [("title", "title"), ("salary", "salary"), ("equity", "equity")]

/-- Whether the store accepts assigning value `v` to physical column `col`
of the jobs table. -/
def jobSetOk (col : String) (v : Jval) : Bool :=
  (col == "title" && v.isStr) || (col == "salary" && (v.isInt || v.isNull))
  || (col == "equity" && (v.isStr || v.isInt || v.isNull))
  || (col == "company_handle" && v.isStr)

/-- Effect of one SET assignment on a job row. -/
def applyJobSet (r : JobRow) (col : String) (v : Jval) : JobRow :=
  if col = "title" then { r with title := v.asStr r.title }
  else if col = "salary" then { r with salary := v.asOptInt }
  else if col = "equity" then { r with equity := v.asOptNum }
  else if col = "company_handle" then { r with company_handle := v.asStr r.company_handle }
  else r

/-- SET assignments of a job UPDATE built from payload `data`. -/
def jobSets (data : List (String × Jval)) : List (String × Jval) :=
  data.map (fun p => (physName jobJsToSql p.1, p.2))

/-- Embedding of `Job.update`: SET clause from `sqlForPartialUpdate`, then
`UPDATE jobs SET ... WHERE id = $n RETURNING title, salary, equity,
company_handle` (no id in the returned row); NotFound when no row
matched. -/
def jobUpdate (id : Nat) (data : List (String × Jval)) (db : JobDB) :
    Except Err (JobRowNoId × JobDB) :=
  match sqlForPartialUpdate data jobJsToSql with
  | .error e => .error e
  | .ok _ =>
    let sets := jobSets data
    if sets.all (fun p => jobSetOk p.1 p.2) then
      match db.rows.find? (fun r => r.id == id) with
      | none => .error .notFound
      | some r =>
        let r2 := sets.foldl (fun x p => applyJobSet x p.1 p.2) r
        .ok (⟨r2.title, r2.salary, r2.equity, r2.company_handle⟩,
             ⟨db.rows.map (fun x =>
                if x.id == id then sets.foldl (fun y p => applyJobSet y p.1 p.2) x else x),
              db.nextId⟩)
    else .error .storeErr

/-- Embedding of `Job.remove`: DELETE by id RETURNING id, NotFound when no
row was deleted. -/
def jobRemove (id : Nat) (db : JobDB) : Except Err JobDB :=
  if (db.rows.find? (fun r => r.id == id)).isSome then
    .ok ⟨db.rows.filter (fun r => !(r.id == id)), db.nextId⟩
  else .error .notFound

/-- Modelled from the spec: the HTTP routes layer (not among the sources
here) schema-validates update payloads before they reach the managers, so
a company update payload holds only the documented updatable fields name,
description, numEmployees, logoUrl with correctly-typed values. -/
def validCompanyUpdateData (data : List (String × Jval)) : Bool :=
  data.all (fun p =>
    (p.1 == "name" && p.2.isStr) || (p.1 == "description" && p.2.isStr)
    || (p.1 == "numEmployees" && (p.2.isInt || p.2.isNull))
    || (p.1 == "logoUrl" && (p.2.isStr || p.2.isNull)))

/-- Modelled from the spec: the routes layer schema-validates job update
payloads, so they hold only the documented updatable fields title, salary,
equity with correctly-typed values. -/
def validJobUpdateData (data : List (String × Jval)) : Bool :=
  data.all (fun p =>
    (p.1 == "title" && p.2.isStr) || (p.1 == "salary" && (p.2.isInt || p.2.isNull))
    || (p.1 == "equity" && (p.2.isStr || p.2.isInt || p.2.isNull)))

/-- Run a sequence of `Company.update` calls (handle, payload), each acting
on the store state left by the previous one; a failed call leaves the
store unchanged. -/
def runCompanyUpdates (calls : List (String × List (String × Jval))) (db : CompanyDB) :
    CompanyDB :=
  calls.foldl
    (fun cur c =>
      match companyUpdate c.1 c.2 cur with
      | .ok (_, db2) => db2
      | .error _ => cur)
    db

deriving instance DecidableEq for Except

/-! Helper lemmas shared by the claim theorems. -/

/-- Characterization of `sqlForPartialUpdate` on a nonempty field set. -/
theorem sqlForPartialUpdate_eq (data : List (String × Jval)) (m : List (String × String))
    (h : data ≠ []) :
    sqlForPartialUpdate data m =
      .ok (String.intercalate ", "
            ((data.map Prod.fst).enum.map (fun p => colFrag m p.2 (p.1 + 1))),
           data.map Prod.snd) := by
  unfold sqlForPartialUpdate
  rw [if_neg]
  simp [h]

/-- Characterization of `companyUpdate` when the payload is nonempty and
every assignment is acceptable to the store. -/
theorem companyUpdate_eq (handle : String) (data : List (String × Jval)) (db : CompanyDB)
    (hne : data ≠ []) (hall : ((companySets data).all fun p => companySetOk p.1 p.2) = true) :
    companyUpdate handle data db =
      match db.find? (fun r => r.handle == handle) with
      | none => .error .notFound
      | some r =>
        .ok ((companySets data).foldl (fun x p => applyCompanySet x p.1 p.2) r,
             db.map (fun x =>
               if x.handle == handle then
                 (companySets data).foldl (fun y p => applyCompanySet y p.1 p.2) x
               else x)) := by
  unfold companyUpdate
  rw [sqlForPartialUpdate_eq data companyJsToSql hne]
  simp only [hall, if_true]

/-- Characterization of `jobUpdate` when the payload is nonempty and every
assignment is acceptable to the store. -/
theorem jobUpdate_eq (id : Nat) (data : List (String × Jval)) (db : JobDB)
    (hne : data ≠ []) (hall : ((jobSets data).all fun p => jobSetOk p.1 p.2) = true) :
    jobUpdate id data db =
      match db.rows.find? (fun r => r.id == id) with
      | none => .error .notFound
      | some r =>
        .ok (⟨((jobSets data).foldl (fun x p => applyJobSet x p.1 p.2) r).title,
             ((jobSets data).foldl (fun x p => applyJobSet x p.1 p.2) r).salary,
             ((jobSets data).foldl (fun x p => applyJobSet x p.1 p.2) r).equity,
             ((jobSets data).foldl (fun x p => applyJobSet x p.1 p.2) r).company_handle⟩,
             ⟨db.rows.map (fun x =>
                if x.id == id then (jobSets data).foldl (fun y p => applyJobSet y p.1 p.2) x
                else x),
              db.nextId⟩) := by
  unfold jobUpdate
  rw [sqlForPartialUpdate_eq data jobJsToSql hne]
  simp only [hall, if_true]

/-- A single SET assignment to any column other than handle leaves the
handle field of a company row unchanged. -/
theorem applyCompanySet_handle (r : CompanyRow) (col : String) (v : Jval)
    (h : col ≠ "handle") : (applyCompanySet r col v).handle = r.handle := by
  unfold applyCompanySet
  rw [if_neg h]
  split
  · rfl
  split
  · rfl
  split
  · rfl
  split
  · rfl
  · rfl

/-- A SET list touching no handle column leaves the handle unchanged. -/
theorem foldl_applyCompanySet_handle (sets : List (String × Jval)) (r : CompanyRow)
    (h : ∀ p ∈ sets, p.1 ≠ "handle") :
    (sets.foldl (fun x p => applyCompanySet x p.1 p.2) r).handle = r.handle := by
  induction sets generalizing r with
  | nil => rfl
  | cons a t ih =>
    rw [List.foldl_cons, ih _ (fun p hp => h p (List.mem_cons_of_mem a hp)),
        applyCompanySet_handle _ _ _ (h a (List.mem_cons_self a t))]

/-- A schema-valid company payload translates to SET assignments that never
target the handle column and are all acceptable to the store. -/
theorem validCompanyUpdateData_cols (data : List (String × Jval))
    (h : validCompanyUpdateData data = true) :
    ∀ p ∈ companySets data, p.1 ≠ "handle" ∧ companySetOk p.1 p.2 = true := by
  intro p hp
  simp only [companySets, List.mem_map] at hp
  obtain ⟨q, hq, rfl⟩ := hp
  have hq2 := List.all_eq_true.mp h q hq
  simp only [Bool.or_eq_true, Bool.and_eq_true, beq_iff_eq] at hq2
  obtain ((⟨h1, h2⟩ | ⟨h1, h2⟩) | ⟨h1, h2⟩) | ⟨h1, h2⟩ := hq2 <;>
    rw [h1] <;>
    exact ⟨by simp [physName, companyJsToSql, List.lookup],
           by simp [physName, companyJsToSql, companySetOk, List.lookup, h2]⟩

/-- A schema-valid job payload translates to SET assignments that never
target the company_handle column and are all acceptable to the store. -/
theorem validJobUpdateData_cols (data : List (String × Jval))
    (h : validJobUpdateData data = true) :
    ∀ p ∈ jobSets data, p.1 ≠ "company_handle" ∧ jobSetOk p.1 p.2 = true := by
  intro p hp
  simp only [jobSets, List.mem_map] at hp
  obtain ⟨q, hq, rfl⟩ := hp
  have hq2 := List.all_eq_true.mp h q hq
  simp only [Bool.or_eq_true, Bool.and_eq_true, beq_iff_eq] at hq2
  obtain (⟨h1, h2⟩ | ⟨h1, h2⟩) | ⟨h1, h2⟩ := hq2 <;>
    rw [h1] <;>
    exact ⟨by simp [physName, jobJsToSql, List.lookup],
           by simp [physName, jobJsToSql, jobSetOk, List.lookup, h2]⟩

/-- A successful company update with a schema-valid payload preserves the
handle column of every row. -/
theorem companyUpdate_handles (handle : String) (data : List (String × Jval))
    (db : CompanyDB) (r : CompanyRow) (db2 : CompanyDB)
    (hv : validCompanyUpdateData data = true)
    (hok : companyUpdate handle data db = .ok (r, db2)) :
    db2.map CompanyRow.handle = db.map CompanyRow.handle := by
  by_cases hne : data = []
  · subst hne
    simp [companyUpdate, sqlForPartialUpdate] at hok
  · have hall : ((companySets data).all fun p => companySetOk p.1 p.2) = true :=
      List.all_eq_true.mpr (fun p hp => (validCompanyUpdateData_cols data hv p hp).2)
    rw [companyUpdate_eq handle data db hne hall] at hok
    cases hfind : db.find? (fun x => x.handle == handle) with
    | none => rw [hfind] at hok; cases hok
    | some r0 =>
      rw [hfind] at hok
      rw [Except.ok.injEq, Prod.mk.injEq] at hok
      obtain ⟨-, hdb2⟩ := hok
      rw [← hdb2, List.map_map]
      refine List.map_congr_left ?_
      intro x hx
      by_cases hxh : (x.handle == handle) = true
      · simp only [Function.comp_apply, if_pos hxh]
        exact foldl_applyCompanySet_handle _ _
          (fun p hp => (validCompanyUpdateData_cols data hv p hp).1)
      · simp only [Function.comp_apply, if_neg hxh]

/-- A single SET assignment to any column other than company_handle leaves
the company_handle field of a job row unchanged. -/
theorem applyJobSet_company_handle (r : JobRow) (col : String) (v : Jval)
    (h : col ≠ "company_handle") :
    (applyJobSet r col v).company_handle = r.company_handle := by
  simp only [applyJobSet, h, ite_false]
  split
  · rfl
  · split
    · rfl
    · split <;> rfl

/-- A SET list touching no company_handle column leaves it unchanged. -/
theorem foldl_applyJobSet_company_handle (sets : List (String × Jval)) (r : JobRow)
    (h : ∀ p ∈ sets, p.1 ≠ "company_handle") :
    (sets.foldl (fun x p => applyJobSet x p.1 p.2) r).company_handle = r.company_handle := by
  induction sets generalizing r with
  | nil => rfl
  | cons a t ih =>
    rw [List.foldl_cons, ih _ (fun p hp => h p (List.mem_cons_of_mem a hp)),
        applyJobSet_company_handle _ _ _ (h a (List.mem_cons_self a t))]

/-! Claim theorems. -/

/-- Claim C1: the claim states that the SQL text passed to the store never
contains caller-controlled filter values, so two filter requests with the
same filter keys but different values produce the same SQL text. The code
interpolates the values into the statement text instead: with the single
key title (resp. name) and the two values a and b, `Job.filter` and
`Company.filter` produce different SQL texts, each embedding its value. -/
theorem filter_sql_depends_on_values :
    jobFilterSQL [("title", "a")] ≠ jobFilterSQL [("title", "b")] ∧
    companyFilter [("name", "a")] ≠ companyFilter [("name", "b")] ∧
    jobFilterSQL [("title", "a")] =
      jobFilterBase ++ " WHERE title ILIKE '%" ++ "a" ++ "%'" := by
  refine ⟨?_, ?_, rfl⟩ <;> · set_option maxRecDepth 4000 in decide

/-- Claim C2: the claim states that when hasEquity is false no equity
restriction is applied. In the single-filter branch the code never
inspects the hasEquity value: the request with exactly the filter
hasEquity = false is sent to the store with the restriction to non-null
positive equity appended, contradicting the claim (and the function's own
doc comment). -/
theorem job_filter_hasEquity_false_restricts :
    jobFilterSQL [("hasEquity", "false")] =
      jobFilterBase ++ " WHERE equity IS NOT NULL AND equity > 0" := rfl

/-- Claim C3: the claim states that filtering with zero filters returns the
same row set as findAll for both entities. `Job.filter` with zero filters
does issue the bare SELECT, but `Company.filter` with zero filters appends
a dangling WHERE keyword with no condition after it: the issued statement
is not a valid SELECT and the store rejects it instead of returning the
findAll row set. -/
theorem company_filter_empty_dangling_where :
    companyFilter [] = .ok (companyFilterBase ++ " WHERE") ∧
    jobFilterSQL [] = jobFilterBase := ⟨rfl, rfl⟩

/-- Claim C4: when a company filter request carries both employee bounds
and the upper bound is strictly below the lower one, the call fails with
BadRequest and no statement is issued to the store. -/
theorem company_filter_unsat_range_badRequest (filters : Filters) (mn mx : String)
    (a b : Int)
    (hmn : filters.lookup "minEmployees" = some mn)
    (hmx : filters.lookup "maxEmployees" = some mx)
    (ha : jsParseInt mn = some a) (hb : jsParseInt mx = some b) (hba : b < a) :
    companyFilter filters = .error Err.badRequest ∧
    companyFilterQueries filters = [] := by
  have h1 : companyFilter filters = .error Err.badRequest := by
    unfold companyFilter
    rw [hmn, hmx]
    simp [jsLt, ha, hb, hba]
  refine ⟨h1, ?_⟩
  simp [companyFilterQueries, h1]

/-- Witness for claim C4 at min = 5, max = 1. -/
theorem company_filter_unsat_range_badRequest_witness :
    (List.lookup "minEmployees" [("minEmployees", "5"), ("maxEmployees", "1")] = some "5" ∧
     jsParseInt "5" = some 5 ∧ jsParseInt "1" = some 1 ∧ (1 : Int) < 5) ∧
    (companyFilter [("minEmployees", "5"), ("maxEmployees", "1")] = .error Err.badRequest ∧
     companyFilterQueries [("minEmployees", "5"), ("maxEmployees", "1")] = []) :=
  ⟨⟨by decide, by decide, by decide, by decide⟩,
   company_filter_unsat_range_badRequest [("minEmployees", "5"), ("maxEmployees", "1")]
     "5" "1" 5 1 (by decide) (by decide) (by decide) (by decide) (by decide)⟩

/-- Claim C5: on a nonempty partial-update input, `sqlForPartialUpdate`
produces one fragment per field, placeholder indices 1-based in iteration
order of the field set, a values list of the same length in matching
positions, and logical names absent from the name-map pass through
verbatim. -/
theorem sqlForPartialUpdate_clause_spec (dataToUpdate : List (String × Jval))
    (jsToSql : List (String × String)) (hne : dataToUpdate ≠ []) :
    ∃ cols : List String,
      sqlForPartialUpdate dataToUpdate jsToSql =
        .ok (String.intercalate ", " cols, dataToUpdate.map Prod.snd) ∧
      cols.length = dataToUpdate.length ∧
      (dataToUpdate.map Prod.snd).length = dataToUpdate.length ∧
      (∀ i k, (dataToUpdate.map Prod.fst)[i]? = some k →
        cols[i]? = some ("\"" ++ physName jsToSql k ++ "\"=$" ++ toString (i + 1))) ∧
      (∀ k, jsToSql.lookup k = none → physName jsToSql k = k) := by
  refine ⟨((dataToUpdate.map Prod.fst).enum.map (fun p => colFrag jsToSql p.2 (p.1 + 1))),
    sqlForPartialUpdate_eq dataToUpdate jsToSql hne, ?_, ?_, ?_, ?_⟩
  · simp
  · simp
  · intro i k hk
    simp [List.getElem?_enum, hk, colFrag]
  · intro k hk
    simp [physName, hk]

/-- Witness for claim C5 at the example input of the spec. -/
theorem sqlForPartialUpdate_clause_spec_witness :
    ([(("firstName" : String), Jval.str "x"), (("isAdmin" : String), Jval.boolean false)] ≠ []) ∧
    ∃ cols : List String,
      sqlForPartialUpdate [("firstName", Jval.str "x"), ("isAdmin", Jval.boolean false)]
          [("firstName", "first_name"), ("isAdmin", "is_admin")] =
        .ok (String.intercalate ", " cols, [Jval.str "x", Jval.boolean false]) ∧
      cols.length = 2 ∧
      ([Jval.str "x", Jval.boolean false] : List Jval).length = 2 ∧
      (∀ i k, ([("firstName", Jval.str "x"), ("isAdmin", Jval.boolean false)].map
          (Prod.fst (α := String) (β := Jval)))[i]? = some k →
        cols[i]? = some ("\"" ++ physName [("firstName", "first_name"), ("isAdmin", "is_admin")] k
          ++ "\"=$" ++ toString (i + 1))) ∧
      (∀ k, ([("firstName", "first_name"), ("isAdmin", "is_admin")] :
          List (String × String)).lookup k = none →
        physName [("firstName", "first_name"), ("isAdmin", "is_admin")] k = k) :=
  ⟨by decide,
   sqlForPartialUpdate_clause_spec [("firstName", Jval.str "x"), ("isAdmin", Jval.boolean false)]
     [("firstName", "first_name"), ("isAdmin", "is_admin")] (by decide)⟩

/-- Claim C6: for every name-map, `sqlForPartialUpdate` on an empty field
set fails with BadRequest; the helper itself never touches the store. -/
theorem sqlForPartialUpdate_empty_badRequest (jsToSql : List (String × String)) :
    sqlForPartialUpdate [] jsToSql = .error Err.badRequest := rfl

/-- Claim C7: across any sequence of partial-update calls whose payloads
passed the upstream schema validation (modelled from the spec by
`validCompanyUpdateData`), the handle column of every company row is
unchanged; only create establishes a handle. -/
theorem company_handle_immutable (calls : List (String × List (String × Jval)))
    (db : CompanyDB)
    (hv : ∀ c ∈ calls, validCompanyUpdateData c.2 = true) :
    (runCompanyUpdates calls db).map CompanyRow.handle = db.map CompanyRow.handle := by
  induction calls generalizing db with
  | nil => rfl
  | cons a t ih =>
    have hstep : (match companyUpdate a.1 a.2 db with
        | .ok (_, db2) => db2
        | .error _ => db).map CompanyRow.handle = db.map CompanyRow.handle := by
      cases h : companyUpdate a.1 a.2 db with
      | ok pr =>
        obtain ⟨r, db2⟩ := pr
        exact companyUpdate_handles a.1 a.2 db r db2 (hv a (List.mem_cons_self a t)) h
      | error e => rfl
    have hrw : runCompanyUpdates (a :: t) db =
        runCompanyUpdates t (match companyUpdate a.1 a.2 db with
          | .ok (_, db2) => db2
          | .error _ => db) := rfl
    rw [hrw, ih _ (fun c hc => hv c (List.mem_cons_of_mem a hc)), hstep]

/-- Witness for claim C7: one valid update on a one-company store. -/
theorem company_handle_immutable_witness :
    (∀ c ∈ [(("c1" : String), [(("name" : String), Jval.str "New")])],
      validCompanyUpdateData c.2 = true) ∧
    (runCompanyUpdates [("c1", [("name", Jval.str "New")])]
        [⟨"c1", "C1", "Desc", none, none⟩]).map CompanyRow.handle =
      ([⟨"c1", "C1", "Desc", none, none⟩] : CompanyDB).map CompanyRow.handle :=
  ⟨by decide, company_handle_immutable _ _ (by decide)⟩

/-- Claim C8 counterexample: the claim states that update on an absent
identifier fails with a NotFound-class error. With an empty update payload
the empty-field check of `sqlForPartialUpdate` fires first: the call on an
absent handle fails with BadRequest, not NotFound. -/
theorem update_absent_empty_payload_badRequest :
    companyUpdate "nope" [] [] ≠ .error Err.notFound ∧
    companyUpdate "nope" [] [] = .error Err.badRequest := by decide

/-- Claim C8 (amended): for an identifier that is absent from the store,
get, update with a nonempty schema-valid payload, and remove each fail
with NotFound, for both Company and Job; the failing remove leaves the
store unchanged, so every repetition fails with NotFound as well. -/
theorem absent_identifier_notFound (cdb : CompanyDB) (jdb : JobDB)
    (handle : String) (id : Nat) (cd jd : List (String × Jval))
    (hca : ∀ r ∈ cdb, r.handle ≠ handle) (hja : ∀ r ∈ jdb.rows, r.id ≠ id)
    (hcv : validCompanyUpdateData cd = true) (hc0 : cd ≠ [])
    (hjv : validJobUpdateData jd = true) (hj0 : jd ≠ []) :
    companyGet handle cdb = .error Err.notFound ∧
    companyUpdate handle cd cdb = .error Err.notFound ∧
    companyRemove handle cdb = .error Err.notFound ∧
    jobGet id jdb = .error Err.notFound ∧
    jobUpdate id jd jdb = .error Err.notFound ∧
    jobRemove id jdb = .error Err.notFound := by
  have hfc : cdb.find? (fun r => r.handle == handle) = none :=
    List.find?_eq_none.mpr (fun x hx => by simpa using hca x hx)
  have hfj : jdb.rows.find? (fun r => r.id == id) = none :=
    List.find?_eq_none.mpr (fun x hx => by simpa using hja x hx)
  have hallc : ((companySets cd).all fun p => companySetOk p.1 p.2) = true :=
    List.all_eq_true.mpr (fun p hp => (validCompanyUpdateData_cols cd hcv p hp).2)
  have hallj : ((jobSets jd).all fun p => jobSetOk p.1 p.2) = true :=
    List.all_eq_true.mpr (fun p hp => (validJobUpdateData_cols jd hjv p hp).2)
  refine ⟨?_, ?_, ?_, ?_, ?_, ?_⟩
  · simp [companyGet, hfc]
  · rw [companyUpdate_eq handle cd cdb hc0 hallc, hfc]
  · simp [companyRemove, hfc]
  · simp [jobGet, hfj]
  · rw [jobUpdate_eq id jd jdb hj0 hallj, hfj]
  · simp [jobRemove, hfj]

/-- Witness for the amended claim C8 on concrete one-row stores. -/
theorem absent_identifier_notFound_witness :
    ((∀ r ∈ ([⟨"c1", "C1", "D", none, none⟩] : CompanyDB), r.handle ≠ "nope") ∧
     (∀ r ∈ (JobDB.mk [⟨1, "j", some 5, none, "c1"⟩] 2).rows, r.id ≠ 99)) ∧
    (companyGet "nope" [⟨"c1", "C1", "D", none, none⟩] = .error Err.notFound ∧
     companyUpdate "nope" [("name", Jval.str "N")] [⟨"c1", "C1", "D", none, none⟩] =
       .error Err.notFound ∧
     companyRemove "nope" [⟨"c1", "C1", "D", none, none⟩] = .error Err.notFound ∧
     jobGet 99 (JobDB.mk [⟨1, "j", some 5, none, "c1"⟩] 2) = .error Err.notFound ∧
     jobUpdate 99 [("title", Jval.str "T")] (JobDB.mk [⟨1, "j", some 5, none, "c1"⟩] 2) =
       .error Err.notFound ∧
     jobRemove 99 (JobDB.mk [⟨1, "j", some 5, none, "c1"⟩] 2) = .error Err.notFound) :=
  ⟨⟨by decide, by decide⟩,
   absent_identifier_notFound [⟨"c1", "C1", "D", none, none⟩]
     (JobDB.mk [⟨1, "j", some 5, none, "c1"⟩] 2) "nope" 99
     [("name", Jval.str "N")] [("title", Jval.str "T")]
     (by decide) (by decide) (by decide) (by decide) (by decide) (by decide)⟩

/-- Claim C9: under non-concurrent execution, a second create with the same
uniqueness key (handle for Company, title and company_handle pair for Job)
and no intervening delete fails with BadRequest, while the first call
returned the newly stored row including the store-assigned job id. -/
theorem duplicate_create_badRequest (cd : CompanyData) (jd : JobData)
    (cdb : CompanyDB) (jdb : JobDB) (cr : CompanyRow) (jr : JobRow)
    (cdb2 : CompanyDB) (jdb2 : JobDB)
    (hc : companyCreate cd cdb = .ok (cr, cdb2))
    (hj : jobCreate jd jdb = .ok (jr, jdb2)) :
    companyCreate cd cdb2 = .error Err.badRequest ∧
    jobCreate jd jdb2 = .error Err.badRequest ∧
    cr = ⟨cd.handle, cd.name, cd.description, cd.numEmployees, cd.logoUrl⟩ ∧
    cr ∈ cdb2 ∧
    jr = ⟨jdb.nextId, jd.title, jd.salary, jd.equity, jd.company_handle⟩ ∧
    jr ∈ jdb2.rows := by
  unfold companyCreate at hc
  split at hc
  · cases hc
  · rw [Except.ok.injEq, Prod.mk.injEq] at hc
    obtain ⟨hcr, hcdb2⟩ := hc
    unfold jobCreate at hj
    split at hj
    · cases hj
    · rw [Except.ok.injEq, Prod.mk.injEq] at hj
      obtain ⟨hjr, hjdb2⟩ := hj
      subst hcr hcdb2 hjr hjdb2
      refine ⟨?_, ?_, rfl, by simp, rfl, by simp⟩
      · have hmem : ((cdb ++ [(⟨cd.handle, cd.name, cd.description, cd.numEmployees,
            cd.logoUrl⟩ : CompanyRow)]).find? (fun r => r.handle == cd.handle)).isSome := by
          rw [List.find?_isSome]
          exact ⟨⟨cd.handle, cd.name, cd.description, cd.numEmployees, cd.logoUrl⟩,
            by simp, by simp⟩
        simp [companyCreate, hmem]
      · have hmem : ((jdb.rows ++ [(⟨jdb.nextId, jd.title, jd.salary, jd.equity,
            jd.company_handle⟩ : JobRow)]).find?
              (fun r => r.title == jd.title && r.company_handle == jd.company_handle)).isSome := by
          rw [List.find?_isSome]
          exact ⟨⟨jdb.nextId, jd.title, jd.salary, jd.equity, jd.company_handle⟩,
            by simp, by simp⟩
        simp [jobCreate, hmem]

/-- Witness for claim C9: create twice into empty stores. -/
theorem duplicate_create_badRequest_witness :
    (companyCreate ⟨"c1", "C1", "D", none, none⟩ [] =
       .ok (⟨"c1", "C1", "D", none, none⟩, [⟨"c1", "C1", "D", none, none⟩]) ∧
     jobCreate ⟨"t", some 1, none, "c1"⟩ (JobDB.mk [] 0) =
       .ok (⟨0, "t", some 1, none, "c1"⟩, JobDB.mk [⟨0, "t", some 1, none, "c1"⟩] 1)) ∧
    (companyCreate ⟨"c1", "C1", "D", none, none⟩ [⟨"c1", "C1", "D", none, none⟩] =
       .error Err.badRequest ∧
     jobCreate ⟨"t", some 1, none, "c1"⟩ (JobDB.mk [⟨0, "t", some 1, none, "c1"⟩] 1) =
       .error Err.badRequest ∧
     (⟨"c1", "C1", "D", none, none⟩ : CompanyRow) = ⟨"c1", "C1", "D", none, none⟩ ∧
     (⟨"c1", "C1", "D", none, none⟩ : CompanyRow) ∈
       [(⟨"c1", "C1", "D", none, none⟩ : CompanyRow)] ∧
     (⟨0, "t", some 1, none, "c1"⟩ : JobRow) = ⟨0, "t", some 1, none, "c1"⟩ ∧
     (⟨0, "t", some 1, none, "c1"⟩ : JobRow) ∈ (JobDB.mk [⟨0, "t", some 1, none, "c1"⟩] 1).rows) :=
  ⟨⟨by decide, by decide⟩,
   duplicate_create_badRequest ⟨"c1", "C1", "D", none, none⟩ ⟨"t", some 1, none, "c1"⟩
     [] (JobDB.mk [] 0) ⟨"c1", "C1", "D", none, none⟩ ⟨0, "t", some 1, none, "c1"⟩
     [⟨"c1", "C1", "D", none, none⟩] (JobDB.mk [⟨0, "t", some 1, none, "c1"⟩] 1)
     (by decide) (by decide)⟩

/-- Claim C10: for a job just created, get returns the row without its
store-assigned identifier (type `JobRowNoId`: only title, salary, equity,
company_handle), update likewise returns an id-less row, while create and
findAll return full rows carrying the store-assigned id. -/
theorem job_get_update_omit_id (d : JobData) (db db2 : JobDB) (jr : JobRow)
    (ud : List (String × Jval))
    (hwf : ∀ x ∈ db.rows, x.id < db.nextId)
    (hc : jobCreate d db = .ok (jr, db2))
    (hv : validJobUpdateData ud = true) (h0 : ud ≠ []) :
    jobGet jr.id db2 = .ok ⟨d.title, d.salary, d.equity, d.company_handle⟩ ∧
    (∃ u : JobRowNoId, ∃ db3 : JobDB,
       jobUpdate jr.id ud db2 = .ok (u, db3) ∧ u.company_handle = d.company_handle) ∧
    jr ∈ jobFindAll db2 ∧
    jr.id = db.nextId := by
  unfold jobCreate at hc
  split at hc
  · cases hc
  · rw [Except.ok.injEq, Prod.mk.injEq] at hc
    obtain ⟨hjr, hdb2⟩ := hc
    subst hjr hdb2
    have hfind : (db.rows ++ [(⟨db.nextId, d.title, d.salary, d.equity,
        d.company_handle⟩ : JobRow)]).find? (fun r => r.id == db.nextId) =
        some ⟨db.nextId, d.title, d.salary, d.equity, d.company_handle⟩ := by
      rw [List.find?_append]
      have h1 : db.rows.find? (fun r => r.id == db.nextId) = none :=
        List.find?_eq_none.mpr (fun x hx => by simp [Nat.ne_of_lt (hwf x hx)])
      rw [h1]
      simp
    have hallj : ((jobSets ud).all fun p => jobSetOk p.1 p.2) = true :=
      List.all_eq_true.mpr (fun p hp => (validJobUpdateData_cols ud hv p hp).2)
    refine ⟨?_, ?_, ?_, rfl⟩
    · simp only [jobGet, hfind]
    · rw [jobUpdate_eq _ ud _ h0 hallj]
      simp only [hfind]
      exact ⟨_, _, rfl,
        foldl_applyJobSet_company_handle _ _
          (fun p hp => (validJobUpdateData_cols ud hv p hp).1)⟩
    · simp [jobFindAll]

/-- Witness for claim C10: create into an empty store, then get and update
job 0. -/
theorem job_get_update_omit_id_witness :
    ((∀ x ∈ (JobDB.mk [] 0).rows, x.id < 0) ∧
     jobCreate ⟨"t", some 10, some "0.1", "c1"⟩ (JobDB.mk [] 0) =
       .ok (⟨0, "t", some 10, some "0.1", "c1"⟩,
            JobDB.mk [⟨0, "t", some 10, some "0.1", "c1"⟩] 1)) ∧
    (jobGet 0 (JobDB.mk [⟨0, "t", some 10, some "0.1", "c1"⟩] 1) =
       .ok ⟨"t", some 10, some "0.1", "c1"⟩ ∧
     (∃ u : JobRowNoId, ∃ db3 : JobDB,
        jobUpdate 0 [("title", Jval.str "u")]
            (JobDB.mk [⟨0, "t", some 10, some "0.1", "c1"⟩] 1) = .ok (u, db3) ∧
        u.company_handle = "c1") ∧
     (⟨0, "t", some 10, some "0.1", "c1"⟩ : JobRow) ∈
       jobFindAll (JobDB.mk [⟨0, "t", some 10, some "0.1", "c1"⟩] 1) ∧
     (0 : Nat) = 0) :=
  ⟨⟨by decide, by decide⟩,
   job_get_update_omit_id ⟨"t", some 10, some "0.1", "c1"⟩ (JobDB.mk [] 0)
     (JobDB.mk [⟨0, "t", some 10, some "0.1", "c1"⟩] 1)
     ⟨0, "t", some 10, some "0.1", "c1"⟩ [("title", Jval.str "u")]
     (by decide) (by decide) (by decide) (by decide)⟩

end Jobly
